import Mathlib

/-!
Shallow embedding of `src/server/ble_server.rs` (BLE GATT server: registry
activation, GAP event routing, connection list and indicate-wait tracker),
together with theorems checking the specification's claims against it.
-/

namespace BleServer

/-- NimBLE sentinel `BLE_HS_CONN_HANDLE_NONE` (0xffff), cast to `u16` in the
source; marks a free slot of the indicate-wait table. -/
def BLE_HS_CONN_HANDLE_NONE : Nat := 0xFFFF

/-- Modelled from the spec: `esp_idf_sys::CONFIG_BT_NIMBLE_MAX_CONNECTIONS`, the
platform's maximum concurrent-connection count, sizes the indicate-wait table.
Its concrete value is configuration-dependent and not in the sources; the
default esp-idf value 3 is used. No claim depends on the value. -/
def CONFIG_BT_NIMBLE_MAX_CONNECTIONS : Nat := 3

/-- NimBLE GATT characteristic flag `BLE_GATT_CHR_F_NOTIFY` (bit of the
`NimbleProperties` bitmask). -/
def NIMBLE_PROPERTY_NOTIFY : Nat := 0x10

/-- NimBLE GATT characteristic flag `BLE_GATT_CHR_F_INDICATE`. -/
def NIMBLE_PROPERTY_INDICATE : Nat := 0x20

/-- A GATT characteristic as the server core sees it: the stack-assigned
attribute handle and the capability bitmask (`NimbleProperties`). -/
structure BLECharacteristic where
  handle : Nat
  properties : Nat
deriving DecidableEq, Repr

/-- `chr.properties.intersects(NimbleProperties::Indicate | NimbleProperties::Notify)`:
bitflags `intersects` is a nonempty bitwise intersection. -/
def BLECharacteristic.subscribable (c : BLECharacteristic) : Bool :=
  (c.properties &&& (NIMBLE_PROPERTY_INDICATE ||| NIMBLE_PROPERTY_NOTIFY)) != 0

/-- A GATT service: identifier (uuid, modelled as an opaque number), the
stack-assigned service handle, and the owned characteristics. -/
structure BLEService where
  uuid : Nat
  handle : Nat
  characteristics : List BLECharacteristic
deriving DecidableEq, Repr

/-- Payload of `BLE_GAP_EVENT_SUBSCRIBE` (`event.subscribe`). -/
structure SubscribeInfo where
  attr_handle : Nat
  conn_handle : Nat
deriving DecidableEq, Repr

/-- Payload of `BLE_GAP_EVENT_CONNECT` (`event.connect`): `status` is 0 on a
successfully established link. -/
structure ConnectInfo where
  status : Int
  conn_handle : Nat
deriving DecidableEq, Repr

/-- Payload of `BLE_GAP_EVENT_DISCONNECT` (`event.disconnect.conn`, reduced to
the connection handle the router consults). -/
structure DisconnectInfo where
  conn_handle : Nat
deriving DecidableEq, Repr

/-- Payload of `BLE_GAP_EVENT_NOTIFY_TX` (`event.notify_tx`): `indication` is
the bitfield accessor result (nonzero when the transmission was an
indication), `status` the transmission/confirmation status. -/
structure NotifyTxInfo where
  status : Int
  conn_handle : Nat
  attr_handle : Nat
  indication : Nat
deriving DecidableEq, Repr

/-- One multiplexed GAP event, tagged by kind as in `ble_gap_event.type_`. -/
inductive GapEvent where
  | connect (c : ConnectInfo)
  | disconnect (d : DisconnectInfo)
  | subscribe (s : SubscribeInfo)
  | notifyTx (n : NotifyTxInfo)
  | other
deriving DecidableEq, Repr

/-- The external stack interface the server calls into. `svcStart` is
`BLEService::start` (modelled from the spec: "start attribute table(service) →
Result", commits a service's structure to the stack — its code is not under
`src/`, and its observable part here is only success or a typed failure);
`gattsStart` is `ble_gatts_start`; `findSvc` is `ble_gatts_find_svc`, returning
the resolved service handle; `connFind` is `ble_gap_conn_find`, returning a
connection descriptor when the handle is known to the stack; `chrSubscribe` is
`BLECharacteristic::subscribe` (modelled from the spec: the characteristic's
own subscription-state update, delegated by the router; its code is not under
`src/`, so it is an opaque update of the characteristic). -/
structure Env where
  svcStart : BLEService → Except Nat Unit
  gattsStart : Except Nat Unit
  findSvc : Nat → Except Nat Nat
  connFind : Nat → Option Unit
  chrSubscribe : SubscribeInfo → BLECharacteristic → BLECharacteristic

/-- The server state (`struct BLEServer`): fields as in the source; the two
callback fields record whether a callback is registered (`Option<Box<dyn
FnMut>>` is `Some`). -/
structure BLEServer where
  started : Bool
  advertise_on_disconnect : Bool
  services : List BLEService
  notify_characteristic : List BLECharacteristic
  connections : List Nat
  indicate_wait : List Nat
  on_connect : Bool
  on_disconnect : Bool
deriving DecidableEq, Repr

/-- `BLEServer::new()`. -/
def BLEServer.new : BLEServer where
  started := false
  advertise_on_disconnect := true
  services := []
  notify_characteristic := []
  connections := []
  indicate_wait := List.replicate CONFIG_BT_NIMBLE_MAX_CONNECTIONS BLE_HS_CONN_HANDLE_NONE
  on_connect := false
  on_disconnect := false

/-- `Vec::swap_remove(i)`: overwrite position `i` with the last element, then
pop the last element. -/
def swapRemove (l : List Nat) (i : Nat) : List Nat :=
  (l.set i (l.getLastD 0)).dropLast

/-- `iter().position(p)`: index of the first element satisfying `p`. -/
def position (p : Nat → Bool) : List Nat → Option Nat
  | [] => none
  | x :: xs => if p x then some 0 else (position p xs).map (fun i => i + 1)

/-- `iter_mut().find(p)` followed by a write through the reference: rewrite the
first element satisfying `p` with `f`; no-op when none matches. -/
def updateFirst {α : Type} (p : α → Bool) (f : α → α) : List α → List α
  | [] => []
  | x :: xs => if p x then f x :: xs else x :: updateFirst p f xs

/-- `BLEServer::set_indicate_wait(conn_handle)`: grants permission to indicate
iff no indicate-wait slot currently holds `conn_handle`. -/
def BLEServer.set_indicate_wait (s : BLEServer) (conn_handle : Nat) : Bool :=
  !(s.indicate_wait.contains conn_handle)

/-- `BLEServer::clear_indicate_wait(conn_handle)`: reset the first slot holding
`conn_handle` to the free sentinel; no-op when none does. -/
def BLEServer.clear_indicate_wait (s : BLEServer) (conn_handle : Nat) : BLEServer :=
  { s with
    indicate_wait :=
      updateFirst (fun x => x == conn_handle) (fun _ => BLE_HS_CONN_HANDLE_NONE)
        s.indicate_wait }

/-- The per-service loop `for svc in &mut self.services { svc.lock().start()?; }`
of `BLEServer::start`: commit each service's attribute table, aborting at the
first failure. -/
def startSvcLoop (env : Env) : List BLEService → Except Nat Unit
  | [] => Except.ok ()
  | svc :: rest =>
    match env.svcStart svc with
    | Except.error e => Except.error e
    | Except.ok () => startSvcLoop env rest

/-- The handle-resolution loop of `BLEServer::start`: for each service in order,
`ble_gatts_find_svc` resolves and stores the service handle, then every
subscribable characteristic of that service is pushed onto
`notify_characteristic`. Returns the outcome, the (partially) updated service
list, and the characteristics pushed before the first failure. -/
def resolveLoop (env : Env) : List BLEService →
    Except Nat Unit × List BLEService × List BLECharacteristic
  | [] => (Except.ok (), [], [])
  | svc :: rest =>
    match env.findSvc svc.uuid with
    | Except.error e => (Except.error e, svc :: rest, [])
    | Except.ok h =>
      let svc2 := { svc with handle := h }
      let pushed := svc.characteristics.filter BLECharacteristic.subscribable
      let (r, rest2, acc) := resolveLoop env rest
      (r, svc2 :: rest2, pushed ++ acc)

/-- `BLEServer::start()`: early-return when already started; commit every
service's attribute table; `ble_gatts_start`; resolve every service handle
while building the subscribable-characteristic index; only then latch
`started`. Errors abort and are returned; mutations made before the aborting
call remain (the source mutates `self` in place). -/
def BLEServer.start (env : Env) (s : BLEServer) : Except Nat Unit × BLEServer :=
  if s.started then (Except.ok (), s)
  else
    match startSvcLoop env s.services with
    | Except.error e => (Except.error e, s)
    | Except.ok () =>
      match env.gattsStart with
      | Except.error e => (Except.error e, s)
      | Except.ok () =>
        let (r, svcs2, pushed) := resolveLoop env s.services
        match r with
        | Except.error e =>
          (Except.error e,
            { s with
              services := svcs2
              notify_characteristic := s.notify_characteristic ++ pushed })
        | Except.ok () =>
          (Except.ok (),
            { s with
              services := svcs2
              notify_characteristic := s.notify_characteristic ++ pushed
              started := true })

/-- Observable side effects of one router invocation: the connection handles
the user `on_connect` / `on_disconnect` callbacks were invoked with, and how
many advertising restarts were requested from the stack. -/
structure GapEffects where
  connectCbCalls : List Nat
  disconnectCbCalls : List Nat
  advertisingRestarts : Nat
deriving DecidableEq, Repr

/-- No observable side effect. -/
def noEffects : GapEffects where
  connectCbCalls := []
  disconnectCbCalls := []
  advertisingRestarts := 0

/-- `BLEServer::handle_gap_event`: the single router entry point, demultiplexed
by event kind. Connect (status 0): push the handle, look the descriptor up and
invoke `on_connect` when both succeed. Disconnect: swap-remove the handle when
present, always invoke `on_disconnect`, restart advertising when the policy
flag is set (a restart failure is only logged, so only the attempt is
recorded). Subscribe: delegate to the matching indexed characteristic.
Notify-tx: for an indication on a tracked characteristic with nonzero status,
clear the indicate-wait slot. Anything else is ignored. -/
def handleGapEvent (env : Env) (ev : GapEvent) (server : BLEServer) :
    BLEServer × GapEffects :=
  match ev with
  | GapEvent.connect c =>
    if c.status = 0 then
      let server2 := { server with connections := server.connections ++ [c.conn_handle] }
      match env.connFind c.conn_handle with
      | some _ =>
        if server2.on_connect then
          (server2, { noEffects with connectCbCalls := [c.conn_handle] })
        else (server2, noEffects)
      | none => (server2, noEffects)
    else (server, noEffects)
  | GapEvent.disconnect d =>
    let server2 :=
      match position (fun x => x == d.conn_handle) server.connections with
      | some idx => { server with connections := swapRemove server.connections idx }
      | none => server
    let calls := if server2.on_disconnect then [d.conn_handle] else []
    let adv := if server2.advertise_on_disconnect then 1 else 0
    (server2,
      { connectCbCalls := [], disconnectCbCalls := calls, advertisingRestarts := adv })
  | GapEvent.subscribe sub =>
    ({ server with
        notify_characteristic :=
          updateFirst (fun x => x.handle == sub.attr_handle) (env.chrSubscribe sub)
            server.notify_characteristic },
      noEffects)
  | GapEvent.notifyTx n =>
    if server.notify_characteristic.any (fun x => x.handle == n.attr_handle) then
      if n.indication > 0 then
        if n.status ≠ 0 then (server.clear_indicate_wait n.conn_handle, noEffects)
        else (server, noEffects)
      else (server, noEffects)
    else (server, noEffects)
  | GapEvent.other => (server, noEffects)

/-- Deliver a sequence of GAP events, threading the server state. -/
def processEvents (env : Env) : List GapEvent → BLEServer → BLEServer
  | [], s => s
  | ev :: rest, s => processEvents env rest (handleGapEvent env ev s).1

/-- The subscribable-characteristic index `start()` builds from a registry, in
registration order: every characteristic whose bitmask intersects
{Notify, Indicate}, exactly once per occurrence. -/
def subscribableChars (svcs : List BLEService) : List BLECharacteristic :=
  svcs.flatMap (fun svc => svc.characteristics.filter BLECharacteristic.subscribable)

/-- Number of connect events in a trace. -/
def countConnect : List GapEvent → Nat
  | [] => 0
  | GapEvent.connect _ :: rest => countConnect rest + 1
  | _ :: rest => countConnect rest

/-- Number of disconnect events in a trace. -/
def countDisconnect : List GapEvent → Nat
  | [] => 0
  | GapEvent.disconnect _ :: rest => countDisconnect rest + 1
  | _ :: rest => countDisconnect rest

/-- One event of a well-formed connect/disconnect trace: a connect has success
status and reports a handle not currently connected (the stack emits at most
one connect per handle); a disconnect references a currently connected handle
(it is subsequent to that handle's connect). -/
def okEvent : GapEvent → BLEServer → Bool
  | GapEvent.connect c, s => c.status == 0 && !(s.connections.contains c.conn_handle)
  | GapEvent.disconnect d, s => s.connections.contains d.conn_handle
  | _, _ => false

/-- A well-formed connect/disconnect trace, checked against the actual
evolution of the server state. -/
def wfEvents (env : Env) : List GapEvent → BLEServer → Bool
  | [], _ => true
  | ev :: rest, s => okEvent ev s && wfEvents env rest (handleGapEvent env ev s).1

/-- An environment in which every stack call trivially succeeds, used to
instantiate theorems at concrete inputs. -/
def envTrivial : Env where
  svcStart := fun _ => Except.ok ()
  gattsStart := Except.ok ()
  findSvc := fun _ => Except.ok 0
  connFind := fun _ => some ()
  chrSubscribe := fun _ c => c

/-- A concrete indicate-capable characteristic with attribute handle 10. -/
def chrInd : BLECharacteristic where
  handle := 10
  properties := NIMBLE_PROPERTY_INDICATE

/-- A concrete server tracking `chrInd`, with connection handle 7 occupying an
indicate-wait slot. -/
def srvInd : BLEServer :=
  { BLEServer.new with
    notify_characteristic := [chrInd]
    indicate_wait := [7, BLE_HS_CONN_HANDLE_NONE, BLE_HS_CONN_HANDLE_NONE] }

/-- A success-status (0) indication-kind transmission result for `chrInd` on
connection 7. -/
def evIndSuccess : GapEvent :=
  GapEvent.notifyTx { status := 0, conn_handle := 7, attr_handle := 10, indication := 1 }

/-- A failure-status indication-kind transmission result for `chrInd` on
connection 7. -/
def evIndFailure : GapEvent :=
  GapEvent.notifyTx { status := 14, conn_handle := 7, attr_handle := 10, indication := 1 }

/-- A concrete notify-capable characteristic. -/
def chrNtf : BLECharacteristic where
  handle := 0
  properties := NIMBLE_PROPERTY_NOTIFY

/-- A concrete service (uuid 1) owning the notify-capable `chrNtf`. -/
def svcOne : BLEService where
  uuid := 1
  handle := 0
  characteristics := [chrNtf]

/-- A concrete empty service (uuid 2). -/
def svcTwo : BLEService where
  uuid := 2
  handle := 0
  characteristics := []

/-- A fresh server with the two-service registry `[svcOne, svcTwo]`. -/
def srvTwoSvcs : BLEServer :=
  { BLEServer.new with services := [svcOne, svcTwo] }

/-- An environment whose handle resolution succeeds for uuid 1 and fails (with
stack error code 530) for every other uuid. -/
def envResolveFail : Env :=
  { envTrivial with
    findSvc := fun u => if u == 1 then Except.ok 100 else Except.error 530 }

/-- An environment in which every stack call succeeds and handle resolution
returns a handle derived from the uuid. -/
def envResolveOk : Env :=
  { envTrivial with findSvc := fun u => Except.ok (100 + u) }

/-- A concrete well-formed trace: connect 5, connect 6, disconnect 5. -/
def traceConnDisc : List GapEvent :=
  [GapEvent.connect { status := 0, conn_handle := 5 },
   GapEvent.connect { status := 0, conn_handle := 6 },
   GapEvent.disconnect { conn_handle := 5 }]

/-- A concrete server that is already started. -/
def srvStarted : BLEServer := { BLEServer.new with started := true }

/-- A concrete server with a registered disconnect callback. -/
def srvWithDisconnectCb : BLEServer := { BLEServer.new with on_disconnect := true }

/-- An environment whose attribute-table commit succeeds for the service with
uuid 1 and fails (with stack error code 3) for every other service. -/
def envCommitFail : Env :=
  { envTrivial with
    svcStart := fun svc => if svc.uuid == 1 then Except.ok () else Except.error 3 }

/--
C3: if the server is already started, a further `start()` returns success,
performs no stack call (the result does not depend on the environment, as both
`env` and `env2` are arbitrary), and leaves the whole server state unchanged;
hence calling `start()` twice is equivalent to calling it once.
-/
theorem C3_start_idempotent (env env2 : Env) (s : BLEServer) (h : s.started = true) :
    s.start env = (Except.ok (), s) ∧ ((s.start env).2).start env2 = (Except.ok (), s) := by
  constructor <;> simp [BLEServer.start, h]

/-- Witness for C3 at a concrete started server. -/
theorem C3_start_idempotent_witness :
    srvStarted.start envTrivial = (Except.ok (), srvStarted) ∧
    ((srvStarted.start envTrivial).2).start envTrivial = (Except.ok (), srvStarted) :=
  C3_start_idempotent envTrivial envTrivial srvStarted rfl

/--
C4: with two registered services, if the attribute-table commit succeeds for
the first and fails for the second, `start()` returns that failure, the state
is unchanged, so `started` remains false and the subscribable-characteristic
index remains empty.
-/
theorem C4_commit_fail_second (env : Env) (s : BLEServer) (a b : BLEService) (e : Nat)
    (hs : s.started = false) (hsvcs : s.services = [a, b])
    (hnc : s.notify_characteristic = [])
    (ha : env.svcStart a = Except.ok ()) (hb : env.svcStart b = Except.error e) :
    s.start env = (Except.error e, s) ∧ (s.start env).2.started = false ∧
      (s.start env).2.notify_characteristic = [] := by
  have h1 : s.start env = (Except.error e, s) := by
    simp [BLEServer.start, hs, hsvcs, startSvcLoop, ha, hb]
  exact ⟨h1, by rw [h1]; exact hs, by rw [h1]; exact hnc⟩

/-- Witness for C4 at a concrete two-service registry. -/
theorem C4_commit_fail_second_witness :
    srvTwoSvcs.start envCommitFail = (Except.error 3, srvTwoSvcs) ∧
    (srvTwoSvcs.start envCommitFail).2.started = false ∧
    (srvTwoSvcs.start envCommitFail).2.notify_characteristic = [] :=
  C4_commit_fail_second envCommitFail srvTwoSvcs svcOne svcTwo 3 rfl rfl rfl rfl rfl

/--
C5: a disconnect event with a registered `on_disconnect` callback invokes the
callback exactly once with the event's connection handle, whether or not the
handle is present in the active-connection list (the statement places no
constraint on `s.connections`).
-/
theorem C5_disconnect_callback_once (env : Env) (s : BLEServer) (d : DisconnectInfo)
    (h : s.on_disconnect = true) :
    (handleGapEvent env (GapEvent.disconnect d) s).2.disconnectCbCalls = [d.conn_handle] := by
  unfold handleGapEvent
  cases hp : position (fun x => x == d.conn_handle) s.connections <;> simp [hp, h]

/-- Witness for C5: the handle 9 is absent from the fresh connection list, and
the callback still fires exactly once. -/
theorem C5_disconnect_callback_once_witness :
    (handleGapEvent envTrivial (GapEvent.disconnect { conn_handle := 9 })
      srvWithDisconnectCb).2.disconnectCbCalls = [9] :=
  C5_disconnect_callback_once envTrivial srvWithDisconnectCb { conn_handle := 9 } rfl

/--
C6: a connect event with non-zero status leaves the entire server state
unchanged and produces no observable effect: no callback invocation and no
advertising restart.
-/
theorem C6_failed_connect_noop (env : Env) (s : BLEServer) (c : ConnectInfo)
    (h : c.status ≠ 0) :
    handleGapEvent env (GapEvent.connect c) s = (s, noEffects) := by
  simp [handleGapEvent, h]

/-- Witness for C6 at a concrete failed connect. -/
theorem C6_failed_connect_noop_witness :
    handleGapEvent envTrivial (GapEvent.connect { status := 2, conn_handle := 5 })
      BLEServer.new = (BLEServer.new, noEffects) :=
  C6_failed_connect_noop envTrivial BLEServer.new { status := 2, conn_handle := 5 }
    (by decide)

/--
C9: a freshly constructed server has `started = false`, the
advertise-on-disconnect policy enabled, empty service, index and connection
lists, and every indicate-wait slot equal to the free sentinel; consequently
the first disconnect event requests an advertising restart.
-/
theorem C9_fresh_server (env : Env) (d : DisconnectInfo) :
    BLEServer.new.started = false ∧
    BLEServer.new.advertise_on_disconnect = true ∧
    BLEServer.new.services = [] ∧
    BLEServer.new.notify_characteristic = [] ∧
    BLEServer.new.connections = [] ∧
    (∀ x ∈ BLEServer.new.indicate_wait, x = BLE_HS_CONN_HANDLE_NONE) ∧
    BLEServer.new.indicate_wait.length = CONFIG_BT_NIMBLE_MAX_CONNECTIONS ∧
    (handleGapEvent env (GapEvent.disconnect d) BLEServer.new).2.advertisingRestarts = 1 := by
  refine ⟨rfl, rfl, rfl, rfl, rfl, ?_, by simp [BLEServer.new], ?_⟩
  · intro x hx
    exact List.eq_of_mem_replicate hx
  · simp [handleGapEvent, BLEServer.new, position]

/--
C10: if any indicate-wait slot is free (holds the sentinel), then
`set_indicate_wait` applied to the sentinel value itself returns false: the
sentinel is never grantable as a connection handle.
-/
theorem C10_sentinel_never_grantable (s : BLEServer)
    (h : BLE_HS_CONN_HANDLE_NONE ∈ s.indicate_wait) :
    s.set_indicate_wait BLE_HS_CONN_HANDLE_NONE = false := by
  simp [BLEServer.set_indicate_wait, List.contains, List.elem_eq_mem, h]

/-- Witness for C10 at the fresh server, whose slots are all free. -/
theorem C10_sentinel_never_grantable_witness :
    BLEServer.new.set_indicate_wait BLE_HS_CONN_HANDLE_NONE = false :=
  C10_sentinel_never_grantable BLEServer.new (by decide)

/-- Writing `conn` over one position of a list not containing `conn` yields at
most one occurrence of `conn`. -/
theorem count_set_le_one {l : List Nat} {conn : Nat} (i : Nat) (h : conn ∉ l) :
    (l.set i conn).count conn ≤ 1 := by
  induction l generalizing i with
  | nil => simp
  | cons a t ih =>
    have ha : conn ≠ a := fun he => h (by simp [he])
    have ht : conn ∉ t := fun hm => h (List.mem_cons_of_mem _ hm)
    rcases i with _ | j
    · simp [List.count_eq_zero.mpr ht]
    · simp only [List.set_cons_succ, List.count_cons_of_ne ha]
      exact ih j ht

/-- `clear_indicate_wait`'s scan (reset the first slot holding `conn` to the
sentinel) removes `conn` entirely when it occurred at most once and is not the
sentinel itself. -/
theorem not_mem_clearFirst {l : List Nat} {conn : Nat}
    (hne : conn ≠ BLE_HS_CONN_HANDLE_NONE) (hcount : l.count conn ≤ 1) :
    conn ∉ updateFirst (fun x => x == conn) (fun _ => BLE_HS_CONN_HANDLE_NONE) l := by
  induction l with
  | nil => simp [updateFirst]
  | cons a t ih =>
    by_cases ha : a = conn
    · subst ha
      have h0 : a ∉ t := by
        have h1 : t.count a = 0 := by
          have h2 := hcount
          simp [List.count_cons_self] at h2
          omega
        exact List.count_eq_zero.mp h1
      simp [updateFirst, List.mem_cons, hne, h0]
    · have hca : conn ≠ a := fun he => ha he.symm
      have hcount2 : t.count conn ≤ 1 := by
        simpa [List.count_cons_of_ne hca] using hcount
      simp only [updateFirst, List.mem_cons]
      rw [if_neg (by simp [ha])]
      simp only [List.mem_cons, not_or]
      exact ⟨hca, ih hcount2⟩

/--
C7: `try_begin_indicate(conn)` (the source's `set_indicate_wait`) returns true
iff no indicate-wait slot currently holds `conn`; it returns true on a state
with no slot holding `conn`, returns false immediately after `conn` was
reserved into a slot, and returns true again after `clear_indicate_wait(conn)`
resets that slot to the free sentinel. (`conn` is a connection handle, hence
distinct from the free-slot sentinel.)
-/
theorem C7_try_begin_indicate (s : BLEServer) (conn i : Nat)
    (hne : conn ≠ BLE_HS_CONN_HANDLE_NONE)
    (hfree : conn ∉ s.indicate_wait)
    (hi : i < s.indicate_wait.length) :
    (∀ s2 : BLEServer, s2.set_indicate_wait conn = true ↔ conn ∉ s2.indicate_wait) ∧
    s.set_indicate_wait conn = true ∧
    ({ s with indicate_wait := s.indicate_wait.set i conn } : BLEServer).set_indicate_wait
        conn = false ∧
    (({ s with indicate_wait := s.indicate_wait.set i conn } : BLEServer).clear_indicate_wait
        conn).set_indicate_wait conn = true := by
  have hiff : ∀ s2 : BLEServer, s2.set_indicate_wait conn = true ↔ conn ∉ s2.indicate_wait := by
    intro s2
    simp [BLEServer.set_indicate_wait, List.contains, List.elem_eq_mem]
  refine ⟨hiff, (hiff s).mpr hfree, ?_, ?_⟩
  · have hmem : conn ∈ s.indicate_wait.set i conn := List.mem_set s.indicate_wait i hi conn
    simp [BLEServer.set_indicate_wait, List.contains, List.elem_eq_mem, hmem]
  · apply (hiff _).mpr
    simp only [BLEServer.clear_indicate_wait]
    exact not_mem_clearFirst hne (count_set_le_one i hfree)

/-- Witness for C7: reserving handle 7 into slot 0 of the fresh server. -/
theorem C7_try_begin_indicate_witness :
    BLEServer.new.set_indicate_wait 7 = true ∧
    ({ BLEServer.new with
        indicate_wait := BLEServer.new.indicate_wait.set 0 7 } : BLEServer).set_indicate_wait
        7 = false ∧
    (({ BLEServer.new with
        indicate_wait := BLEServer.new.indicate_wait.set 0 7 } : BLEServer).clear_indicate_wait
        7).set_indicate_wait 7 = true := by
  have h := C7_try_begin_indicate BLEServer.new 7 0 (by decide) (by decide) (by decide)
  exact ⟨h.2.1, h.2.2.1, h.2.2.2⟩

/--
C1 counterexample: a success-status (0) indication-kind transmission result
for a tracked characteristic does NOT clear the indicate-wait slot holding its
connection handle: the slot still holds 7 and a subsequent
`try_begin_indicate(7)` returns false, where the claim promises it returns
true on any terminal outcome.
-/
theorem C1_counterexample :
    (handleGapEvent envTrivial evIndSuccess srvInd).1.indicate_wait
        = [7, BLE_HS_CONN_HANDLE_NONE, BLE_HS_CONN_HANDLE_NONE] ∧
    (handleGapEvent envTrivial evIndSuccess srvInd).1.set_indicate_wait 7 = false :=
  ⟨rfl, rfl⟩

/--
C1 (amended): for an indication-kind transmission-result event on a tracked
subscribable characteristic, the indicate-wait slot holding the event's
connection handle is cleared when the status is non-zero (the failure /
terminal-confirmation path actually implemented), so a subsequent
`try_begin_indicate` for that connection returns true; a status-0 event leaves
the slot pending. The handle occurs in at most one slot (the spec's
one-pending-indication-per-connection invariant) and is a real handle,
distinct from the sentinel.
-/
theorem C1_indicate_wait_cleared_on_failure (env : Env) (s : BLEServer) (n : NotifyTxInfo)
    (htracked : s.notify_characteristic.any (fun x => x.handle == n.attr_handle) = true)
    (hind : 0 < n.indication) (hstatus : n.status ≠ 0)
    (hne : n.conn_handle ≠ BLE_HS_CONN_HANDLE_NONE)
    (hcount : s.indicate_wait.count n.conn_handle ≤ 1) :
    (handleGapEvent env (GapEvent.notifyTx n) s).1.set_indicate_wait n.conn_handle = true := by
  simp only [handleGapEvent, htracked, if_true, hind, hstatus]
  rw [if_pos hstatus]
  simp only [BLEServer.clear_indicate_wait, BLEServer.set_indicate_wait, List.contains]
  simp only [List.elem_eq_mem]
  simp only [Bool.not_eq_true']
  simp only [decide_eq_false_iff_not]
  exact not_mem_clearFirst hne hcount

/-- Witness for C1 (amended): the failure-status indication result for
connection 7 frees its slot. -/
theorem C1_indicate_wait_cleared_on_failure_witness :
    (handleGapEvent envTrivial evIndFailure srvInd).1.set_indicate_wait 7 = true :=
  C1_indicate_wait_cleared_on_failure envTrivial srvInd
    { status := 14, conn_handle := 7, attr_handle := 10, indication := 1 }
    rfl (by decide) (by decide) (by decide) (by decide)

/-- When the handle-resolution loop runs to completion, the characteristics it
pushed are exactly the subscribable characteristics of the registry, in
registration order. -/
theorem resolveLoop_ok (env : Env) :
    ∀ (svcs svcs2 : List BLEService) (acc : List BLECharacteristic),
      resolveLoop env svcs = (Except.ok (), svcs2, acc) → acc = subscribableChars svcs := by
  intro svcs
  induction svcs with
  | nil =>
    intro svcs2 acc h
    simp only [resolveLoop, Prod.mk.injEq] at h
    simp [subscribableChars, ← h.2.2]
  | cons svc rest ih =>
    intro svcs2 acc h
    simp only [resolveLoop] at h
    cases hf : env.findSvc svc.uuid with
    | error e =>
      rw [hf] at h
      simp at h
    | ok hdl =>
      rw [hf] at h
      rcases hr : resolveLoop env rest with ⟨r, rest2, acc2⟩
      rw [hr] at h
      simp only [Prod.mk.injEq] at h
      obtain ⟨h1, _, h3⟩ := h
      have hacc2 : acc2 = subscribableChars rest := by
        apply ih rest2 acc2
        rw [hr, h1]
      rw [← h3, hacc2]
      simp [subscribableChars]

/--
C2 counterexample: with the two-service registry `[svcOne, svcTwo]`, a first
`start()` whose handle resolution fails for the second service, followed by a
retried `start()` whose stack calls all succeed, ends with the retry
succeeding but the notify-capable characteristic of the first service
occurring twice in the subscribable-characteristic index, where the claim
promises exactly once.
-/
theorem C2_counterexample :
    (srvTwoSvcs.start envResolveFail).1 = Except.error 530 ∧
    ((srvTwoSvcs.start envResolveFail).2.start envResolveOk).1 = Except.ok () ∧
    ((srvTwoSvcs.start envResolveFail).2.start
        envResolveOk).2.notify_characteristic.count chrNtf = 2 :=
  ⟨rfl, rfl, rfl⟩

/--
C2 (amended): when `start()` succeeds on a not-yet-started server whose
subscribable-characteristic index is still empty (in particular when no
earlier attempt reached handle resolution), the resulting index is exactly the
list of subscribable characteristics of the registry in registration order:
every characteristic whose bitmask includes Notify or Indicate occurs exactly
once, and every other characteristic occurs zero times. (After an earlier
attempt failed during handle resolution the index is already non-empty and a
retried `start()` duplicates its entries, as the counterexample shows.)
-/
theorem C2_index_exact_from_clean_state (env : Env) (s s2 : BLEServer)
    (hs : s.started = false) (hnc : s.notify_characteristic = [])
    (hstart : s.start env = (Except.ok (), s2)) :
    s2.notify_characteristic = subscribableChars s.services := by
  unfold BLEServer.start at hstart
  rw [if_neg (by simp [hs])] at hstart
  cases h1 : startSvcLoop env s.services with
  | error e =>
    rw [h1] at hstart
    simp at hstart
  | ok u =>
    cases u
    rw [h1] at hstart
    cases h2 : env.gattsStart with
    | error e =>
      rw [h2] at hstart
      simp at hstart
    | ok u2 =>
      cases u2
      rw [h2] at hstart
      rcases h3 : resolveLoop env s.services with ⟨r, svcs2, acc⟩
      rw [h3] at hstart
      cases r with
      | error e => simp at hstart
      | ok u3 =>
        cases u3
        simp only [Prod.mk.injEq] at hstart
        rw [← hstart.2]
        simp only [hnc, List.nil_append]
        apply resolveLoop_ok env s.services svcs2
        rw [h3]

/-- Witness for C2 (amended): a clean `start()` on the two-service registry
indexes the notify-capable characteristic exactly once. -/
theorem C2_index_exact_from_clean_state_witness :
    ((srvTwoSvcs.start envResolveOk).2).notify_characteristic
      = subscribableChars srvTwoSvcs.services :=
  C2_index_exact_from_clean_state envResolveOk srvTwoSvcs
    (srvTwoSvcs.start envResolveOk).2 rfl rfl rfl

/-- `position` finds an index within bounds whenever the sought handle is in
the list. -/
theorem position_mem {l : List Nat} {h : Nat} (hm : h ∈ l) :
    ∃ i, position (fun x => x == h) l = some i ∧ i < l.length := by
  induction l with
  | nil => cases hm
  | cons a t ih =>
    by_cases hah : a = h
    · exact ⟨0, by simp [position, hah], by simp⟩
    · rcases List.mem_cons.mp hm with he | ht
      · exact absurd he.symm hah
      · rcases ih ht with ⟨i, hp, hlt⟩
        refine ⟨i + 1, ?_, by simpa using Nat.succ_lt_succ hlt⟩
        simp [position, hah, hp]

/-- `swap_remove` at a valid index shortens the list by exactly one. -/
theorem swapRemove_length {l : List Nat} {i : Nat} (_h : i < l.length) :
    (swapRemove l i).length = l.length - 1 := by
  simp [swapRemove]

/-- A success-status connect event appends the new handle to the connection
list and changes nothing else of the server state, whichever way the
descriptor lookup and the callback branch go. -/
theorem handle_connect_fst (env : Env) (c : ConnectInfo) (s : BLEServer)
    (h : c.status = 0) :
    (handleGapEvent env (GapEvent.connect c) s).1
      = { s with connections := s.connections ++ [c.conn_handle] } := by
  simp only [handleGapEvent]
  rw [if_pos h]
  cases hf : env.connFind c.conn_handle <;> simp [hf, apply_ite]

/-- A disconnect event whose handle is at index `i` of the connection list
swap-removes that index. -/
theorem handle_disconnect_fst (env : Env) (d : DisconnectInfo) (s : BLEServer) (i : Nat)
    (hp : position (fun x => x == d.conn_handle) s.connections = some i) :
    (handleGapEvent env (GapEvent.disconnect d) s).1
      = { s with connections := swapRemove s.connections i } := by
  simp only [handleGapEvent]
  rw [hp]

/-- Length bookkeeping for well-formed connect/disconnect traces: each connect
grows the connection list by one, each disconnect shrinks it by one. -/
theorem processEvents_length_aux (env : Env) :
    ∀ (evs : List GapEvent) (s : BLEServer), wfEvents env evs s = true →
      (processEvents env evs s).connections.length + countDisconnect evs
        = s.connections.length + countConnect evs := by
  intro evs
  induction evs with
  | nil =>
    intro s _
    simp [processEvents, countConnect, countDisconnect]
  | cons ev rest ih =>
    intro s hwf
    simp only [wfEvents, Bool.and_eq_true] at hwf
    obtain ⟨hok, hwf2⟩ := hwf
    cases ev with
    | connect c =>
      simp only [okEvent, Bool.and_eq_true, beq_iff_eq] at hok
      have hstep := handle_connect_fst env c s hok.1
      have hih := ih (handleGapEvent env (GapEvent.connect c) s).1 hwf2
      rw [hstep] at hih
      simp only [List.length_append, List.length_cons, List.length_nil] at hih
      simp only [processEvents, countConnect, countDisconnect]
      rw [hstep]
      omega
    | disconnect d =>
      simp only [okEvent] at hok
      have hmem : d.conn_handle ∈ s.connections := by
        simpa [List.contains, List.elem_eq_mem] using hok
      obtain ⟨i, hp, hi⟩ := position_mem hmem
      have hstep := handle_disconnect_fst env d s i hp
      have hih := ih (handleGapEvent env (GapEvent.disconnect d) s).1 hwf2
      rw [hstep] at hih
      have hlen := swapRemove_length hi
      have hpos : 0 < s.connections.length :=
        List.length_pos.mpr (List.ne_nil_of_mem hmem)
      simp only [processEvents, countConnect, countDisconnect]
      rw [hstep]
      simp only [hlen] at hih
      omega
    | subscribe sub => simp [okEvent] at hok
    | notifyTx n => simp [okEvent] at hok
    | other => simp [okEvent] at hok

/--
C8: over any well-formed sequence of success-status connect events (each
reporting a handle not currently connected) interleaved with disconnect
events referencing connected handles, starting from an empty
active-connection list, the final list length equals the number of connects
minus the number of disconnects.
-/
theorem C8_connection_count (env : Env) (evs : List GapEvent) (s : BLEServer)
    (hempty : s.connections = []) (hwf : wfEvents env evs s = true) :
    (processEvents env evs s).connections.length
      = countConnect evs - countDisconnect evs := by
  have h := processEvents_length_aux env evs s hwf
  rw [hempty] at h
  simp only [List.length_nil, Nat.zero_add] at h
  omega

/-- Witness for C8 on the concrete trace connect 5, connect 6, disconnect 5. -/
theorem C8_connection_count_witness :
    (processEvents envTrivial traceConnDisc BLEServer.new).connections.length
      = countConnect traceConnDisc - countDisconnect traceConnDisc :=
  C8_connection_count envTrivial traceConnDisc BLEServer.new rfl (by decide)

end BleServer
